import Mathlib

/-!
Shallow embedding of the Adaptive Rate-Limited Request Scheduler
(`src/services/RateLimiter.js`) of the discord-bot-lol-tracker repository.

Modelling conventions:
* JavaScript millisecond timestamps (`Date.now()`) are `Int`.
* JavaScript floating-point quantities (the backoff multiplier, backoff
  delays, average response time, derived rates) are `ℚ`; the literal `0.9`
  is `9/10`.
* The cache (`Map` keyed by caller-supplied cache keys) is an association
  list `List (Nat × CacheEntry)`; cached payloads are `Int` (opaque API
  results).  `Map.set` replaces the binding for a key, `Map.delete`
  removes it; lookup returns the binding for the key if present.
* A request's pending promise is not a value in the state; instead each
  driver function returns an `ExecAction` saying whether the pending
  result was resolved, rejected, or left unsettled (requeued).  The
  asynchronous outcome of running a request's `requestFn` is supplied as
  an explicit `Outcome` parameter.
-/

/-- One entry of the result cache: `{ data, timestamp }` as stored by
`executeRequest` (RateLimiter.js lines 211-216). -/
structure CacheEntry where
  data : Int
  timestamp : Int
deriving DecidableEq, Repr

/-- A queued request as built by `addRequest` (RateLimiter.js lines 76-90):
the clamped priority, optional cache key, timeout, enqueue timestamp and
retry counter.  `rid` identifies the request (its promise handle); the
opaque `requestFn` is not part of the state, its behaviour is supplied as
an `Outcome` at execution time. -/
structure Request where
  rid : Nat
  priority : Int
  cacheKey : Option Nat
  timeout : Int
  timestamp : Int
  retryCount : Nat
deriving DecidableEq, Repr

/-- The four priority queues, `this.priorityQueues[1..4]`
(RateLimiter.js lines 17-22); larger index means higher priority. -/
structure Queues where
  q1 : List Request
  q2 : List Request
  q3 : List Request
  q4 : List Request
deriving DecidableEq, Repr

namespace Queues

/-- The empty queue family (constructor state). -/
def empty : Queues := ⟨[], [], [], []⟩

/-- `this.priorityQueues[p]` for `p ∈ {1,2,3,4}` (the only keys that
exist; `addRequest` clamps the priority into that range). -/
def tier (qs : Queues) (p : Int) : List Request :=
  if p = 1 then qs.q1
  else if p = 2 then qs.q2
  else if p = 3 then qs.q3
  else qs.q4

/-- `this.priorityQueues[p].push(r)` — append at the back of tier `p`. -/
def pushTier (qs : Queues) (p : Int) (r : Request) : Queues :=
  if p = 1 then { qs with q1 := qs.q1 ++ [r] }
  else if p = 2 then { qs with q2 := qs.q2 ++ [r] }
  else if p = 3 then { qs with q3 := qs.q3 ++ [r] }
  else { qs with q4 := qs.q4 ++ [r] }

/-- `this.priorityQueues[p].unshift(r)` — insert at the front of tier `p`
(used by the retry path of `executeRequest`, line 260). -/
def unshiftTier (qs : Queues) (p : Int) (r : Request) : Queues :=
  if p = 1 then { qs with q1 := r :: qs.q1 }
  else if p = 2 then { qs with q2 := r :: qs.q2 }
  else if p = 3 then { qs with q3 := r :: qs.q3 }
  else { qs with q4 := r :: qs.q4 }

end Queues

/-- `getNextRequest` (RateLimiter.js lines 139-147): scan tiers 4 → 1,
`shift` the head of the first non-empty tier, `null` if all are empty.
Returns the popped request together with the remaining queues. -/
def getNextRequest (qs : Queues) : Option (Request × Queues) :=
  match qs.q4 with
  | r :: rest => some (r, { qs with q4 := rest })
  | [] =>
    match qs.q3 with
    | r :: rest => some (r, { qs with q3 := rest })
    | [] =>
      match qs.q2 with
      | r :: rest => some (r, { qs with q2 := rest })
      | [] =>
        match qs.q1 with
        | r :: rest => some (r, { qs with q1 := rest })
        | [] => none

/-- The metrics record `this.metrics` (RateLimiter.js lines 36-44). -/
structure Metrics where
  totalRequests : Nat
  successfulRequests : Nat
  failedRequests : Nat
  rateLimitHits : Nat
  cacheHits : Nat
  averageResponseTime : ℚ
  lastResetTime : Int
deriving DecidableEq, Repr

/-- `this.metrics` right after the constructor ran at time `now`
(all counters zero, `lastResetTime = Date.now()`). -/
def Metrics.init (now : Int) : Metrics :=
  ⟨0, 0, 0, 0, 0, 0, now⟩

/-- The mutable state of a `RateLimiter` instance (constructor,
RateLimiter.js lines 7-48). `requestsPerSecond` / `requestsPerTwoMinutes`
are the *current effective* capacities of the 1-second and 120-second
windows (nominal 18 and 95). -/
structure RateLimiter where
  requestsPerSecond : Int
  requestsPerTwoMinutes : Int
  requestTimes : List Int
  twoMinuteRequests : List Int
  priorityQueues : Queues
  consecutiveErrors : Nat
  lastErrorTime : Int
  backoffMultiplier : ℚ
  cache : List (Nat × CacheEntry)
  metrics : Metrics
deriving DecidableEq, Repr

/-- Constructor state of the scheduler at time `now`. -/
def RateLimiter.init (now : Int) : RateLimiter :=
  ⟨18, 95, [], [], Queues.empty, 0, 0, 1, [], Metrics.init now⟩

/-- `this.cache.get(k)` on the association-list model. -/
def cacheGet (c : List (Nat × CacheEntry)) (k : Nat) : Option CacheEntry :=
  (c.find? (fun p => p.1 = k)).map (fun p => p.2)

/-- `this.cache.delete(k)`. -/
def cacheDelete (c : List (Nat × CacheEntry)) (k : Nat) : List (Nat × CacheEntry) :=
  c.filter (fun p => ¬ p.1 = k)

/-- `this.cache.set(k, { data, timestamp })` — replace any existing
binding for `k`. -/
def cacheSet (c : List (Nat × CacheEntry)) (k : Nat) (e : CacheEntry) :
    List (Nat × CacheEntry) :=
  (k, e) :: cacheDelete c k

/-- `this.cacheTimeout` (RateLimiter.js line 33): 30 seconds. -/
def cacheTimeout : Int := 30000

/-- `canMakeRequest` (RateLimiter.js lines 153-165): prune both window
lists to timestamps with `now - t < duration` (a side effect kept in the
returned state) and report whether both pruned counts are strictly below
the current effective capacities. -/
def canMakeRequest (s : RateLimiter) (now : Int) : Bool × RateLimiter :=
  let rt := s.requestTimes.filter (fun t => now - t < 1000)
  let tm := s.twoMinuteRequests.filter (fun t => now - t < 120000)
  let ok := ((rt.length : Int) < s.requestsPerSecond)
      && ((tm.length : Int) < s.requestsPerTwoMinutes)
  (ok, { s with requestTimes := rt, twoMinuteRequests := tm })

/-- `waitForRateLimit` (RateLimiter.js lines 171-180): the number of
milliseconds the loop sleeps, `max(timeUntilSecondReset,
timeUntilTwoMinuteReset, 50)`, where each non-empty window contributes
`duration - (now - oldest) + 50` and an empty window contributes 0. -/
def waitForRateLimit (s : RateLimiter) (now : Int) : Int :=
  let timeUntilSecondReset : Int :=
    match s.requestTimes with
    | t :: _ => 1000 - (now - t) + 50
    | [] => 0
  let timeUntilTwoMinuteReset : Int :=
    match s.twoMinuteRequests with
    | t :: _ => 120000 - (now - t) + 50
    | [] => 0
  max (max timeUntilSecondReset timeUntilTwoMinuteReset) 50

/-- `updateMetrics(success, responseTime)` (RateLimiter.js lines 286-301):
bump the success/failure counter; on success also reset the
consecutive-error counter and decay the backoff multiplier
(`max(1, m * 0.9)`); when `responseTime > 0` fold it into the running
average response time. -/
def updateMetrics (s : RateLimiter) (success : Bool) (responseTime : ℚ) :
    RateLimiter :=
  let s1 :=
    if success then
      { s with
        metrics := { s.metrics with
          successfulRequests := s.metrics.successfulRequests + 1 }
        consecutiveErrors := 0
        backoffMultiplier := max 1 (s.backoffMultiplier * (9 / 10)) }
    else
      { s with
        metrics := { s.metrics with
          failedRequests := s.metrics.failedRequests + 1 } }
  if responseTime > 0 then
    let total : ℚ :=
      ((s1.metrics.successfulRequests + s1.metrics.failedRequests : Nat) : ℚ)
    { s1 with
      metrics := { s1.metrics with
        averageResponseTime :=
          (s1.metrics.averageResponseTime * (total - 1) + responseTime) / total } }
  else s1

/-- How the awaited `requestFn()` (raced against the timeout) settles:
a value with an observed response time, a throttling error (message
containing `429`/`rate limit`, optionally carrying a parsed
`Retry after <n>` value in seconds), or any other error — a timeout
included, since `new Error('Request timeout')` matches neither `429`
nor `rate limit`. -/
inductive Outcome where
  | success (result : Int) (responseTime : ℚ)
  | throttle (retryAfterSec : Option Nat)
  | failure
deriving DecidableEq, Repr

/-- What `executeRequest` did with the caller's pending promise:
resolved it, rejected it, or left it unsettled and scheduled the updated
request for re-insertion at the front of its tier after `delay` ms. -/
inductive ExecAction where
  | resolved (result : Int)
  | rejected
  | requeuedFront (delay : ℚ) (req : Request)
deriving DecidableEq, Repr

/-- The backoff delay computed at RateLimiter.js lines 230-245 for a
throttling failure: `n` is the consecutive-error counter *after* its
increment, `m` the backoff multiplier, `retryAfterSec` the parsed
`Retry after` value in seconds (defaulting to 1 when absent):
`min(30000, max(retryAfter * 1000, 1000 * 2^n * m))`. -/
def backoffDelay (n : Nat) (m : ℚ) (retryAfterSec : Option Nat) : ℚ :=
  let retryAfter : Nat := retryAfterSec.getD 1
  min (max ((retryAfter : ℚ) * 1000) (1000 * 2 ^ n * m)) 30000

/-- `executeRequest(request)` (RateLimiter.js lines 186-280) with the
awaited outcome made explicit.  Records `now` in both rate windows, then:
on success updates metrics, caches the result under the cache key (if
any) and resolves; on a throttling error updates metrics and error
state, shrinks the effective capacities when more than 2 consecutive
errors accumulated, and either requeues (retry counter < 3, incremented,
front of its tier after the backoff delay) or rejects; on any other
error resets the error state, restores the effective capacities one step
toward nominal, and rejects. -/
def executeRequest (s : RateLimiter) (now : Int) (req : Request)
    (outcome : Outcome) : RateLimiter × ExecAction :=
  let s0 := { s with
    requestTimes := s.requestTimes ++ [now]
    twoMinuteRequests := s.twoMinuteRequests ++ [now] }
  match outcome with
  | .success result responseTime =>
    let s1 := updateMetrics s0 true responseTime
    let s2 :=
      match req.cacheKey with
      | some k => { s1 with cache := cacheSet s1.cache k ⟨result, now⟩ }
      | none => s1
    (s2, .resolved result)
  | .throttle retryAfterSec =>
    let s1 := updateMetrics s0 false 0
    let s2 := { s1 with
      metrics := { s1.metrics with rateLimitHits := s1.metrics.rateLimitHits + 1 }
      consecutiveErrors := s1.consecutiveErrors + 1
      lastErrorTime := now }
    let backoffTime := backoffDelay s2.consecutiveErrors s2.backoffMultiplier retryAfterSec
    let s3 :=
      if s2.consecutiveErrors > 2 then
        { s2 with
          requestsPerSecond := max 10 (s2.requestsPerSecond - 2)
          requestsPerTwoMinutes := max 50 (s2.requestsPerTwoMinutes - 10) }
      else s2
    if req.retryCount < 3 then
      (s3, .requeuedFront backoffTime { req with retryCount := req.retryCount + 1 })
    else
      (s3, .rejected)
  | .failure =>
    let s1 := updateMetrics s0 false 0
    let s2 := { s1 with consecutiveErrors := 0, backoffMultiplier := 1 }
    let s3 :=
      if s2.requestsPerSecond < 18 then
        { s2 with requestsPerSecond := min 18 (s2.requestsPerSecond + 1) }
      else s2
    let s4 :=
      if s3.requestsPerTwoMinutes < 95 then
        { s3 with requestsPerTwoMinutes := min 95 (s3.requestsPerTwoMinutes + 5) }
      else s3
    (s4, .rejected)

/-- What one iteration of `processLoop` (RateLimiter.js lines 108-133)
did: slept because every queue was empty; popped a request, found the
rate limit exhausted, slept for the computed wait — the popped request
`req` is referenced by no state afterwards; or executed the popped
request. -/
inductive StepResult where
  | idle
  | rateLimited (req : Request) (wait : Int)
  | executed (act : ExecAction)
deriving DecidableEq, Repr

/-- One iteration of the dispatch loop body (RateLimiter.js lines
110-126): `getNextRequest()` pops from the queues; with no request the
loop sleeps; otherwise `canMakeRequest()` is consulted (pruning both
windows) and on denial the loop sleeps for `waitForRateLimit()` and
`continue`s — without restoring `req` anywhere — while on admission
`executeRequest(req)` runs with the supplied outcome. -/
def processStep (s : RateLimiter) (now : Int) (outcome : Outcome) :
    RateLimiter × StepResult :=
  match getNextRequest s.priorityQueues with
  | none => (s, .idle)
  | some (req, qs) =>
    let s1 := { s with priorityQueues := qs }
    let (ok, s2) := canMakeRequest s1 now
    if ok then
      let (s3, act) := executeRequest s2 now req outcome
      (s3, .executed act)
    else
      (s2, .rateLimited req (waitForRateLimit s2 now))

/-- `Math.max(1, Math.min(4, priority))` (RateLimiter.js line 81). -/
def clampPriority (p : Int) : Int := max 1 (min 4 p)

/-- What `addRequest(requestFn, {priority, cacheKey, timeout})`
(RateLimiter.js lines 59-91) did: returned a cached value immediately,
or enqueued a new request and returned the pending promise. -/
inductive AddResult where
  | cachedHit (value : Int)
  | enqueued (req : Request)
deriving DecidableEq, Repr

/-- `addRequest` (RateLimiter.js lines 59-91): if a cache key is given
and a fresh entry (younger than `cacheTimeout`) exists, count a cache
hit and return its data without touching the queues; a stale entry is
deleted first.  Otherwise build a request with the priority clamped into
1..4, retry counter 0 and enqueue timestamp `now`, push it at the back
of its tier and count it in `totalRequests`. -/
def addRequest (s : RateLimiter) (rid : Nat) (priority : Int)
    (cacheKey : Option Nat) (timeout : Int) (now : Int) :
    RateLimiter × AddResult :=
  let hit : Option Int :=
    match cacheKey with
    | some k =>
      match cacheGet s.cache k with
      | some e => if now - e.timestamp < cacheTimeout then some e.data else none
      | none => none
    | none => none
  match hit with
  | some v =>
    ({ s with metrics := { s.metrics with cacheHits := s.metrics.cacheHits + 1 } },
      .cachedHit v)
  | none =>
    let s1 :=
      match cacheKey with
      | some k =>
        match cacheGet s.cache k with
        | some _ => { s with cache := cacheDelete s.cache k }
        | none => s
      | none => s
    let req : Request :=
      ⟨rid, clampPriority priority, cacheKey, timeout, now, 0⟩
    ({ s1 with
        priorityQueues := s1.priorityQueues.pushTier req.priority req
        metrics := { s1.metrics with totalRequests := s1.metrics.totalRequests + 1 } },
      .enqueued req)

/-- The derived figures computed on read by `getMetrics`
(RateLimiter.js lines 333-346).  `requestsPerMinute` is
`(totalRequests / uptime) * 60000` with no guard on `uptime`; a zero
uptime makes the JavaScript division non-finite (NaN or Infinity),
modelled as `none`. -/
structure DerivedMetrics where
  uptime : Int
  requestsPerMinute : Option ℚ
  successRate : ℚ
  cacheHitRate : ℚ
deriving DecidableEq, Repr

/-- `getMetrics` (RateLimiter.js lines 333-346): `uptime = now -
lastResetTime`; `successRate` and `cacheHitRate` are guarded by the
ternary on `totalRequests > 0` and report 0 otherwise;
`requestsPerMinute` divides by `uptime` unguarded. -/
def getMetrics (m : Metrics) (now : Int) : DerivedMetrics :=
  let uptime := now - m.lastResetTime
  { uptime := uptime
    requestsPerMinute :=
      if uptime = 0 then none
      else some (((m.totalRequests : ℚ) / (uptime : ℚ)) * 60000)
    successRate :=
      if m.totalRequests > 0 then
        ((m.successfulRequests : ℚ) / (m.totalRequests : ℚ)) * 100
      else 0
    cacheHitRate :=
      if m.totalRequests > 0 then
        ((m.cacheHits : ℚ) / (m.totalRequests : ℚ)) * 100
      else 0 }

/-! ### Helper lemmas -/

/-- `executeRequest` records `now` in both rate windows and touches them
in no other way, whatever the outcome. -/
theorem executeRequest_windows (s : RateLimiter) (now : Int) (req : Request)
    (o : Outcome) :
    (executeRequest s now req o).1.requestTimes = s.requestTimes ++ [now]
    ∧ (executeRequest s now req o).1.twoMinuteRequests
        = s.twoMinuteRequests ++ [now] := by
  cases o <;>
    simp only [executeRequest, updateMetrics] <;>
    split <;> simp_all <;> split <;> simp_all <;> split <;> simp_all

/-- Prepending with `unshiftTier` puts the new request at the front of
the named tier. -/
theorem unshiftTier_tier (qs : Queues) (p : Int) (r : Request) :
    (qs.unshiftTier p r).tier p = r :: qs.tier p := by
  simp only [Queues.unshiftTier, Queues.tier]
  split_ifs <;> rfl

/-- Appending with `pushTier` puts the new request at the back of the
named tier. -/
theorem pushTier_tier (qs : Queues) (p : Int) (r : Request) :
    (qs.pushTier p r).tier p = qs.tier p ++ [r] := by
  simp only [Queues.pushTier, Queues.tier]
  split_ifs <;> rfl

/-- Deleting a key from the cache makes a lookup of that key miss. -/
theorem cacheGet_cacheDelete (c : List (Nat × CacheEntry)) (k : Nat) :
    cacheGet (cacheDelete c k) k = none := by
  induction c with
  | nil => rfl
  | cons hd tl ih =>
    by_cases h : hd.1 = k <;>
      simp_all [cacheGet, cacheDelete, List.filter_cons, h]

/-- Setting a key stores exactly that entry under the key. -/
theorem cacheGet_cacheSet (c : List (Nat × CacheEntry)) (k : Nat)
    (e : CacheEntry) : cacheGet (cacheSet c k e) k = some e := by
  simp [cacheGet, cacheSet]

/-! ### C8 — strict-priority FIFO dispatch -/

/-- C8: `getNextRequest` scans tiers from 4 down to 1 and returns the
head of the first non-empty tier, returning `none` exactly when all four
queues are empty; the head is removed (so repeated dispatch within a
tier follows insertion order, `pushTier` appending at the back), and a
lower tier is never served while a higher tier is non-empty. -/
theorem c8_strict_priority_fifo (qs : Queues) :
    (getNextRequest qs = none ↔
      qs.q1 = [] ∧ qs.q2 = [] ∧ qs.q3 = [] ∧ qs.q4 = [])
    ∧ (∀ r rest, qs.q4 = r :: rest →
        getNextRequest qs = some (r, { qs with q4 := rest }))
    ∧ (∀ r rest, qs.q4 = [] → qs.q3 = r :: rest →
        getNextRequest qs = some (r, { qs with q3 := rest }))
    ∧ (∀ r rest, qs.q4 = [] → qs.q3 = [] → qs.q2 = r :: rest →
        getNextRequest qs = some (r, { qs with q2 := rest }))
    ∧ (∀ r rest, qs.q4 = [] → qs.q3 = [] → qs.q2 = [] → qs.q1 = r :: rest →
        getNextRequest qs = some (r, { qs with q1 := rest }))
    ∧ (∀ p r, (qs.pushTier p r).tier p = qs.tier p ++ [r]) := by
  obtain ⟨q1, q2, q3, q4⟩ := qs
  refine ⟨?_, ?_, ?_, ?_, ?_, ?_⟩
  · cases q4 <;> cases q3 <;> cases q2 <;> cases q1 <;>
      simp [getNextRequest]
  · intro r rest h
    subst h
    simp [getNextRequest]
  · intro r rest h4 h3
    subst h4; subst h3
    simp [getNextRequest]
  · intro r rest h4 h3 h2
    subst h4; subst h3; subst h2
    simp [getNextRequest]
  · intro r rest h4 h3 h2 h1
    subst h4; subst h3; subst h2; subst h1
    simp [getNextRequest]
  · intro p r
    exact pushTier_tier ⟨q1, q2, q3, q4⟩ p r

/-- Fixture requests for concrete witnesses. -/
def reqA : Request := ⟨0, 1, none, 10000, 0, 0⟩

/-- Fixture request in tier 3. -/
def reqB : Request := ⟨1, 3, none, 10000, 0, 0⟩

/-- Witness for C8: with tier 4 empty, tier 3 non-empty and a tier-1
request also queued, dispatch pops the tier-3 head. -/
theorem c8_strict_priority_fifo_witness :
    getNextRequest ⟨[reqA], [], [reqB], []⟩
      = some (reqB, ⟨[reqA], [], [], []⟩) :=
  (c8_strict_priority_fifo ⟨[reqA], [], [reqB], []⟩).2.2.1 reqB [] rfl rfl

/-! ### C10 — priority clamping -/

/-- C10: `addRequest` never rejects a request for an out-of-range
priority: the stored priority is `Math.max(1, Math.min(4, p))`, which
equals `min 4 (max 1 p)`, always lies in 1..4, maps `p ≤ 0` to 1 and
`p ≥ 5` to 4; whenever a request is enqueued it is appended at the back
of that tier, and with no cache key a request is always enqueued. -/
theorem c10_priority_clamp (s : RateLimiter) (rid : Nat) (p : Int)
    (ck : Option Nat) (tout now : Int) :
    (∀ req, (addRequest s rid p ck tout now).2 = .enqueued req →
      req.priority = max 1 (min 4 p)
      ∧ req.priority = min 4 (max 1 p)
      ∧ 1 ≤ req.priority ∧ req.priority ≤ 4
      ∧ (p ≤ 0 → req.priority = 1)
      ∧ (5 ≤ p → req.priority = 4)
      ∧ (addRequest s rid p ck tout now).1.priorityQueues.tier req.priority
          = s.priorityQueues.tier req.priority ++ [req])
    ∧ (ck = none → ∃ req, (addRequest s rid p ck tout now).2 = .enqueued req) := by
  constructor
  · intro req h
    have hkey : (addRequest s rid p ck tout now).2
          = .enqueued ⟨rid, clampPriority p, ck, tout, now, 0⟩
        ∧ (addRequest s rid p ck tout now).1.priorityQueues
          = s.priorityQueues.pushTier (clampPriority p)
              ⟨rid, clampPriority p, ck, tout, now, 0⟩ := by
      rcases ck with _ | k
      · exact ⟨rfl, rfl⟩
      · rcases hg : cacheGet s.cache k with _ | e
        · simp [addRequest, hg]
        · by_cases hf : now - e.timestamp < cacheTimeout
          · exfalso
            simp [addRequest, hg, hf] at h
          · simp [addRequest, hg, hf]
    obtain ⟨h2, hqs⟩ := hkey
    rw [h2] at h
    obtain rfl := (AddResult.enqueued.inj h).symm
    refine ⟨rfl, ?_, ?_, ?_, ?_, ?_, ?_⟩
    · show clampPriority p = min 4 (max 1 p)
      simp only [clampPriority]
      omega
    · show 1 ≤ clampPriority p
      simp only [clampPriority]
      omega
    · show clampPriority p ≤ 4
      simp only [clampPriority]
      omega
    · intro hp
      show clampPriority p = 1
      simp only [clampPriority]
      omega
    · intro hp
      show clampPriority p = 4
      simp only [clampPriority]
      omega
    · rw [hqs]
      exact pushTier_tier _ _ _
  · intro hck
    subst hck
    exact ⟨⟨rid, clampPriority p, none, tout, now, 0⟩, rfl⟩

/-- Witness for C10: a request submitted with priority 9 and no cache
key is enqueued with priority 4. -/
theorem c10_priority_clamp_witness :
    ∃ req, (addRequest (RateLimiter.init 0) 5 9 none 10000 3).2 = .enqueued req
      ∧ req.priority = 4 := by
  obtain ⟨req, hreq⟩ :=
    (c10_priority_clamp (RateLimiter.init 0) 5 9 none 10000 3).2 rfl
  exact ⟨req, hreq,
    ((c10_priority_clamp (RateLimiter.init 0) 5 9 none 10000 3).1 req hreq).2.2.2.2.2.1
      (by decide)⟩

/-! ### C4 — admission invariant -/

/-- C4: one dispatch-loop step admits a request (records `now` in both
windows and executes) only when both pruned window counts are strictly
below the current effective capacities, and then the in-window counts
after recording stay at most those capacities (taken at the moment of
admission); a denied step changes the recorded timestamps only by
pruning. -/
theorem c4_admission_invariant (s : RateLimiter) (now : Int)
    (outcome : Outcome) (s2 : RateLimiter) :
    (∀ act, processStep s now outcome = (s2, .executed act) →
      ((s.requestTimes.filter (fun t => now - t < 1000)).length : Int)
          < s.requestsPerSecond
      ∧ ((s.twoMinuteRequests.filter (fun t => now - t < 120000)).length : Int)
          < s.requestsPerTwoMinutes
      ∧ ((s2.requestTimes.filter (fun t => now - t < 1000)).length : Int)
          ≤ s.requestsPerSecond
      ∧ ((s2.twoMinuteRequests.filter (fun t => now - t < 120000)).length : Int)
          ≤ s.requestsPerTwoMinutes)
    ∧ (∀ req w, processStep s now outcome = (s2, .rateLimited req w) →
      s2.requestTimes = s.requestTimes.filter (fun t => now - t < 1000)
      ∧ s2.twoMinuteRequests
          = s.twoMinuteRequests.filter (fun t => now - t < 120000)) := by
  have hfilt : ∀ (l : List Int) (d : Int),
      (l.filter (fun t => now - t < d)).filter (fun t => now - t < d)
        = l.filter (fun t => now - t < d) := by
    intro l d
    simp [List.filter_filter, Bool.and_self]
  constructor
  · intro act h
    unfold processStep at h
    rcases hg : getNextRequest s.priorityQueues with _ | ⟨req, qs⟩ <;>
      rw [hg] at h
    · simp [Prod.ext_iff] at h
    · simp only [canMakeRequest] at h
      split at h
      case isTrue hcond =>
        simp only [Bool.and_eq_true, decide_eq_true_eq] at hcond
        obtain ⟨h1, h2⟩ := hcond
        injection h with hs2 hact
        refine ⟨h1, h2, ?_, ?_⟩
        · rw [← hs2, (executeRequest_windows _ now req outcome).1]
          simp only [List.filter_append]
          rw [hfilt]
          simp only [List.length_append]
          have hb : (List.filter (fun t => decide (now - t < 1000)) [now]).length
              ≤ 1 := List.length_filter_le _ _
          push_cast
          omega
        · rw [← hs2, (executeRequest_windows _ now req outcome).2]
          simp only [List.filter_append]
          rw [hfilt]
          simp only [List.length_append]
          have hb : (List.filter (fun t => decide (now - t < 120000)) [now]).length
              ≤ 1 := List.length_filter_le _ _
          push_cast
          omega
      case isFalse hcond =>
        simp [Prod.ext_iff] at h
  · intro req w h
    unfold processStep at h
    rcases hg : getNextRequest s.priorityQueues with _ | ⟨r, qs⟩ <;>
      rw [hg] at h
    · simp [Prod.ext_iff] at h
    · simp only [canMakeRequest] at h
      split at h
      · simp [Prod.ext_iff] at h
      · injection h with hs2 hres
        exact ⟨by rw [← hs2], by rw [← hs2]⟩

/-- Fixture: a fresh scheduler with one tier-1 request queued. -/
def c4State : RateLimiter :=
  { RateLimiter.init 0 with priorityQueues := ⟨[reqA], [], [], []⟩ }

/-- Witness for C4: an admission step from an empty-window state keeps
both in-window counts within the effective capacities. -/
theorem c4_admission_invariant_witness :
    ((c4State.requestTimes.filter (fun t => (5 : Int) - t < 1000)).length : Int)
        < c4State.requestsPerSecond
    ∧ (((processStep c4State 5 (.success 7 3)).1.requestTimes.filter
        (fun t => (5 : Int) - t < 1000)).length : Int)
        ≤ c4State.requestsPerSecond := by
  have h := (c4_admission_invariant c4State 5 (.success 7 3)
      (processStep c4State 5 (.success 7 3)).1).1 (.resolved 7) (by rfl)
  exact ⟨h.1, h.2.2.1⟩

/-! ### C1 — the dispatch loop drops a popped request on denial -/

/-- Fixture: a tier-1 request pending while both windows are full. -/
def c1Req : Request := ⟨7, 1, none, 10000, 999000, 0⟩

/-- Fixture: scheduler state at `now = 1000000` with 18 admissions
recorded 500 ms ago (the 1-second window is at its effective capacity)
and `c1Req` queued. -/
def c1State : RateLimiter :=
  { RateLimiter.init 0 with
    priorityQueues := ⟨[c1Req], [], [], []⟩
    requestTimes := List.replicate 18 999500
    twoMinuteRequests := List.replicate 18 999500 }

/-- C1 (code bug): with `c1Req` queued and admission denied, the loop
body pops `c1Req` via `getNextRequest`, sees `canMakeRequest()` fail,
sleeps and `continue`s — afterwards every priority queue is empty, no
admission was recorded and nothing was executed, so `c1Req` is gone and
its pending promise can never settle.  The spec requires the request to
be re-examined or re-queued, never lost. -/
theorem c1_denied_pop_discards_request :
    (processStep c1State 1000000 .failure).2 = .rateLimited c1Req 119550
    ∧ (processStep c1State 1000000 .failure).1.priorityQueues = Queues.empty
    ∧ (processStep c1State 1000000 .failure).1.requestTimes
        = List.replicate 18 999500
    ∧ (processStep c1State 1000000 .failure).1.twoMinuteRequests
        = List.replicate 18 999500
    ∧ (processStep c1State 1000000 .failure).1.metrics = c1State.metrics := by
  refine ⟨rfl, rfl, rfl, rfl, rfl⟩

/-! ### C2 — success does not restore the effective capacities -/

/-- Fixture: a scheduler whose effective capacities were ratcheted down
to 10 requests/second and 50 requests/two-minutes. -/
def c2State : RateLimiter :=
  { RateLimiter.init 0 with
    requestsPerSecond := 10
    requestsPerTwoMinutes := 50
    consecutiveErrors := 4 }

/-- C2 (code bug): a successful execution resets the consecutive-error
counter and decays the backoff multiplier, but leaves the reduced
effective capacities at 10 and 50 — the `+1`/`+5` restoration the spec
promises on success (to 11 and 55 here) sits in the non-throttling
*failure* branch of `executeRequest`, despite its own comment saying it
restores limits "after successful periods". -/
theorem c2_success_leaves_capacities_unchanged :
    (executeRequest c2State 5 reqA (.success 7 3)).1.consecutiveErrors = 0
    ∧ (executeRequest c2State 5 reqA (.success 7 3)).1.backoffMultiplier = 1
    ∧ (executeRequest c2State 5 reqA (.success 7 3)).1.requestsPerSecond = 10
    ∧ (executeRequest c2State 5 reqA (.success 7 3)).1.requestsPerTwoMinutes = 50
    ∧ ¬ (executeRequest c2State 5 reqA (.success 7 3)).1.requestsPerSecond = 11
    ∧ ¬ (executeRequest c2State 5 reqA (.success 7 3)).1.requestsPerTwoMinutes = 55
    ∧ (executeRequest c2State 5 reqA (.failure)).1.requestsPerSecond = 11
    ∧ (executeRequest c2State 5 reqA (.failure)).1.requestsPerTwoMinutes = 55 := by
  refine ⟨rfl, ?_, rfl, rfl, by decide, by decide, rfl, rfl⟩
  show max 1 ((1 : ℚ) * (9 / 10)) = 1
  norm_num

/-! ### C5 — retry ceiling and front re-insertion -/

/-- C5: a throttling failure with retry counter below 3 increments the
counter and schedules the updated request for re-insertion at the
*front* of its original priority tier after the computed backoff delay,
leaving the pending promise unsettled; once the counter has reached 3
(i.e. after exactly three such requeues, each incrementing it by one)
the next throttling failure rejects the promise with the throttling
error — a fourth retry never happens. -/
theorem c5_retry_ceiling (s : RateLimiter) (now : Int) (req : Request)
    (ra : Option Nat) :
    (req.retryCount < 3 →
      (executeRequest s now req (.throttle ra)).2
        = .requeuedFront
            (backoffDelay (s.consecutiveErrors + 1) s.backoffMultiplier ra)
            { req with retryCount := req.retryCount + 1 }
      ∧ ∀ qs : Queues,
          (qs.unshiftTier req.priority
              { req with retryCount := req.retryCount + 1 }).tier req.priority
            = { req with retryCount := req.retryCount + 1 } :: qs.tier req.priority)
    ∧ (3 ≤ req.retryCount →
      (executeRequest s now req (.throttle ra)).2 = .rejected) := by
  constructor
  · intro hlt
    constructor
    · by_cases hc : s.consecutiveErrors + 1 > 2 <;>
        simp [executeRequest, updateMetrics, hlt, hc]
    · intro qs
      exact unshiftTier_tier qs req.priority _
  · intro hge
    have hlt : ¬ req.retryCount < 3 := by omega
    by_cases hc : s.consecutiveErrors + 1 > 2 <;>
      simp [executeRequest, updateMetrics, hlt, hc]

/-- Fixture: a request that has already been requeued three times. -/
def c5Req3 : Request := ⟨2, 2, none, 10000, 0, 3⟩

/-- Witness for C5: the fourth consecutive throttling failure of a
request rejects it instead of retrying. -/
theorem c5_retry_ceiling_witness :
    (executeRequest (RateLimiter.init 0) 5 c5Req3 (.throttle none)).2
      = .rejected :=
  (c5_retry_ceiling (RateLimiter.init 0) 5 c5Req3 none).2 (by decide)

/-! ### C6 — backoff delay computation -/

/-- Fixture: a fresh request for the backoff counterexample. -/
def c6Req : Request := ⟨3, 2, none, 10000, 0, 0⟩

/-- Fixture: `c6Req` after one requeue. -/
def c6Req1 : Request := ⟨3, 2, none, 10000, 0, 1⟩

/-- C6 counterexample: two consecutive throttling failures with no
intervening success produce a *decreasing* delay when the provider
suggests a long retry-after on the first failure (29 s → delay 29000 ms)
and none on the second (delay 4000 ms), refuting the claimed
monotonicity. -/
theorem c6_backoff_counterexample :
    (executeRequest (RateLimiter.init 0) 10 c6Req (.throttle (some 29))).2
      = .requeuedFront 29000 c6Req1
    ∧ (executeRequest
        (executeRequest (RateLimiter.init 0) 10 c6Req (.throttle (some 29))).1
        20 c6Req1 (.throttle none)).2
      = .requeuedFront 4000 ⟨3, 2, none, 10000, 0, 2⟩
    ∧ ¬ ((29000 : ℚ) ≤ 4000) := by
  refine ⟨?_, ?_, by norm_num⟩ <;>
    · simp [executeRequest, backoffDelay, updateMetrics, RateLimiter.init,
        Metrics.init, c6Req, c6Req1]
      norm_num

/-- C6 amended: on a throttling failure the delay is
`min(30000, max(suggested-delay-in-ms (1 s when absent), 1000 · 2^n · m))`
with `n` the incremented consecutive-error counter and `m` the backoff
multiplier; with no provider suggestion the default never matters (the
exponential term is at least 2000 ms since `m ≥ 1`, an invariant: the
multiplier starts at 1 and every update is `max 1 _` or `1`), and the
delay is non-decreasing across failures provided the effective suggested
delays are non-decreasing — in particular when none is supplied. -/
theorem c6_backoff_amended (s : RateLimiter) (now : Int) (req : Request)
    (ra : Option Nat) (hm : 1 ≤ s.backoffMultiplier)
    (hr : req.retryCount < 3) :
    ((executeRequest s now req (.throttle ra)).2
      = .requeuedFront
          (min (max (((ra.getD 1 : Nat) : ℚ) * 1000)
            (1000 * 2 ^ (s.consecutiveErrors + 1) * s.backoffMultiplier)) 30000)
          { req with retryCount := req.retryCount + 1 })
    ∧ (ra = none →
      (executeRequest s now req (.throttle ra)).2
        = .requeuedFront
            (min (1000 * 2 ^ (s.consecutiveErrors + 1) * s.backoffMultiplier)
              30000)
            { req with retryCount := req.retryCount + 1 })
    ∧ (∀ (n1 n2 : Nat) (m : ℚ) (r1 r2 : Option Nat), n1 ≤ n2 → 0 ≤ m →
        (r1.getD 1) ≤ r2.getD 1 →
        backoffDelay n1 m r1 ≤ backoffDelay n2 m r2) := by
  have hfirst : (executeRequest s now req (.throttle ra)).2
      = .requeuedFront
          (min (max (((ra.getD 1 : Nat) : ℚ) * 1000)
            (1000 * 2 ^ (s.consecutiveErrors + 1) * s.backoffMultiplier)) 30000)
          { req with retryCount := req.retryCount + 1 } := by
    by_cases hc : s.consecutiveErrors + 1 > 2 <;>
      simp [executeRequest, updateMetrics, backoffDelay, hr, hc]
  refine ⟨hfirst, ?_, ?_⟩
  · intro hnone
    subst hnone
    rw [hfirst]
    have h2 : (2 : ℚ) ≤ 2 ^ (s.consecutiveErrors + 1) := by
      calc (2 : ℚ) = 2 ^ 1 := (pow_one 2).symm
        _ ≤ 2 ^ (s.consecutiveErrors + 1) :=
          pow_le_pow_right₀ (by norm_num) (by omega)
    have he : (1000 : ℚ)
        ≤ 1000 * 2 ^ (s.consecutiveErrors + 1) * s.backoffMultiplier := by
      nlinarith
    rw [show (((Option.getD (none : Option Nat) 1 : Nat) : ℚ) * 1000)
        = 1000 by norm_num]
    rw [max_eq_right he]
  · intro n1 n2 m r1 r2 hn hm0 hrr
    unfold backoffDelay
    apply min_le_min _ le_rfl
    apply max_le_max
    · have hc : ((r1.getD 1 : Nat) : ℚ) ≤ ((r2.getD 1 : Nat) : ℚ) := by
        exact_mod_cast hrr
      exact mul_le_mul_of_nonneg_right hc (by norm_num)
    · have h2 : (2 : ℚ) ^ n1 ≤ 2 ^ n2 := pow_le_pow_right₀ (by norm_num) hn
      have h3 : (1000 : ℚ) * 2 ^ n1 ≤ 1000 * 2 ^ n2 :=
        mul_le_mul_of_nonneg_left h2 (by norm_num)
      exact mul_le_mul_of_nonneg_right h3 hm0

/-- Witness for C6 (amended): the first throttling failure with a 29 s
suggestion is requeued with delay 29000 ms, as the formula computes. -/
theorem c6_backoff_amended_witness :
    (executeRequest (RateLimiter.init 0) 10 c6Req (.throttle (some 29))).2
      = .requeuedFront 29000 c6Req1 := by
  have h := (c6_backoff_amended (RateLimiter.init 0) 10 c6Req (some 29)
      (le_refl 1) (by decide)).1
  rw [h]
  norm_num [RateLimiter.init, c6Req, c6Req1]

/-! ### C3 — next-available wait computation -/

/-- Modelled from the spec (claim C3 / §4.1 `nextAvailableAt`): the
next-available instant exactly as the claim states it — the maximum,
taken only over windows that are currently *full* (count at or above the
current effective capacity), of (oldest timestamp in that full window) +
(window duration); `none` when neither window is full.  Written for
comparison against the source's `waitForRateLimit`. -/
def claimNextAvailableAt (s : RateLimiter) : Option Int :=
  let fullShort : Option Int :=
    match s.requestTimes with
    | t :: _ =>
      if s.requestsPerSecond ≤ (s.requestTimes.length : Int) then some (t + 1000)
      else none
    | [] => none
  let fullLong : Option Int :=
    match s.twoMinuteRequests with
    | t :: _ =>
      if s.requestsPerTwoMinutes ≤ (s.twoMinuteRequests.length : Int) then
        some (t + 120000)
      else none
    | [] => none
  match fullShort, fullLong with
  | some a, some b => some (max a b)
  | some a, none => some a
  | none, some b => some b
  | none, none => none

/-- Fixture: at `now = 200000` the 1-second window holds 18 admissions
from 500 ms ago (full at effective capacity 18), and the 120-second
window holds the same 18 admissions (far below its capacity 95). -/
def c3State : RateLimiter :=
  { RateLimiter.init 0 with
    requestTimes := List.replicate 18 199500
    twoMinuteRequests := List.replicate 18 199500 }

/-- C3 counterexample: admission is denied, the claim's formula yields
the instant 200500 (only the full short window contributes), but the
code waits 119550 ms — until instant 319550 — because the *non-full*
long window contributes `oldest + duration + 50` to the maximum. -/
theorem c3_wait_counterexample :
    (canMakeRequest c3State 200000).1 = false
    ∧ claimNextAvailableAt (canMakeRequest c3State 200000).2 = some 200500
    ∧ 200000 + waitForRateLimit (canMakeRequest c3State 200000).2 200000
        = 319550
    ∧ ¬ (319550 : Int) = 200500 := by
  refine ⟨rfl, rfl, rfl, by decide⟩

/-- C3 amended: the wait computed on denial takes contributions from
every *non-empty* window, full or not — each contributes (its oldest
timestamp) + (window duration) + a 50 ms margin — and is floored at
50 ms: as an instant, `now + wait` is the maximum of `oldest + 1050`
and `oldest' + 120050` over the non-empty windows and `now + 50`. -/
theorem c3_wait_formula (s : RateLimiter) (now : Int) :
    50 ≤ waitForRateLimit s now
    ∧ (∀ t rest u rest2, s.requestTimes = t :: rest →
        s.twoMinuteRequests = u :: rest2 →
        now + waitForRateLimit s now
          = max (max (t + 1050) (u + 120050)) (now + 50))
    ∧ (∀ t rest, s.requestTimes = t :: rest → s.twoMinuteRequests = [] →
        now + waitForRateLimit s now = max (t + 1050) (now + 50))
    ∧ (∀ u rest2, s.requestTimes = [] → s.twoMinuteRequests = u :: rest2 →
        now + waitForRateLimit s now = max (u + 120050) (now + 50))
    ∧ (s.requestTimes = [] → s.twoMinuteRequests = [] →
        waitForRateLimit s now = 50) := by
  refine ⟨?_, ?_, ?_, ?_, ?_⟩
  · rcases hrt : s.requestTimes with _ | ⟨t, rest⟩ <;>
      rcases htm : s.twoMinuteRequests with _ | ⟨u, rest2⟩ <;>
      simp [waitForRateLimit, hrt, htm] <;> omega
  · intro t rest u rest2 hrt htm
    simp [waitForRateLimit, hrt, htm]
    omega
  · intro t rest hrt htm
    simp [waitForRateLimit, hrt, htm]
    omega
  · intro u rest2 hrt htm
    simp [waitForRateLimit, hrt, htm]
    omega
  · intro hrt htm
    simp [waitForRateLimit, hrt, htm]

/-- Fixture: both windows non-empty for the wait-formula witness. -/
def c3WitState : RateLimiter :=
  { RateLimiter.init 0 with requestTimes := [100], twoMinuteRequests := [40] }

/-- Witness for C3 (amended): with oldest timestamps 100 and 40 the wait
instant is the maximum of 1150, 120090 and `now + 50`. -/
theorem c3_wait_formula_witness :
    (1000 : Int) + waitForRateLimit c3WitState 1000
      = max (max (100 + 1050) (40 + 120050)) (1000 + 50) :=
  (c3_wait_formula c3WitState 1000).2.1 100 [] 40 [] rfl rfl

/-! ### C7 — derived metrics and division by zero -/

/-- C7 counterexample: `getMetrics` called in the same millisecond as
construction (or a metrics reset) divides by a zero uptime;
`requestsPerMinute` is the non-finite JavaScript value (modelled
`none`), not the finite 0 the claim requires. -/
theorem c7_unguarded_throughput_counterexample :
    (getMetrics (RateLimiter.init 1000).metrics 1000).requestsPerMinute = none
    ∧ ¬ (getMetrics (RateLimiter.init 1000).metrics 1000).requestsPerMinute
        = some 0 := by
  constructor
  · rfl
  · rw [show (getMetrics (RateLimiter.init 1000).metrics 1000).requestsPerMinute
        = none from rfl]
    simp

/-- C7 amended: `successRate` and `cacheHitRate` are guarded (0 whenever
`totalRequests = 0`), and `requestsPerMinute` is the unguarded
`(totalRequests / uptime) · 60000`: non-finite (`none`) exactly when the
uptime is zero, the finite quotient otherwise — in particular a finite 0
when no request has been counted and the uptime is positive. -/
theorem c7_derived_metrics_guards (m : Metrics) (now : Int) :
    (m.totalRequests = 0 →
      (getMetrics m now).successRate = 0 ∧ (getMetrics m now).cacheHitRate = 0)
    ∧ (now - m.lastResetTime = 0 → (getMetrics m now).requestsPerMinute = none)
    ∧ (¬ now - m.lastResetTime = 0 →
      (getMetrics m now).requestsPerMinute
        = some (((m.totalRequests : ℚ) / ((now - m.lastResetTime : Int) : ℚ))
            * 60000))
    ∧ (m.totalRequests = 0 → ¬ now - m.lastResetTime = 0 →
      (getMetrics m now).requestsPerMinute = some 0) := by
  refine ⟨?_, ?_, ?_, ?_⟩
  · intro h
    constructor <;> simp [getMetrics, h]
  · intro h
    simp [getMetrics, h]
  · intro h
    simp [getMetrics, h]
  · intro h h2
    simp [getMetrics, h, h2]

/-- Witness for C7 (amended): half a second after a reset with no events
counted, the throughput is a finite 0. -/
theorem c7_derived_metrics_guards_witness :
    (getMetrics (Metrics.init 0) 500).requestsPerMinute = some 0 :=
  (c7_derived_metrics_guards (Metrics.init 0) 500).2.2.2 rfl (by decide)

/-! ### C9 — cache round-trip with TTL -/

/-- C9: storing `v` under key `k` at `tput` and then submitting with the
same key at `tget`: while strictly less than 30000 ms have elapsed the
submit short-circuits with the cached `v` and touches neither cache nor
queues; at or after 30000 ms the entry is removed, the submit does not
short-circuit, and a new request is enqueued. -/
theorem c9_cache_roundtrip (s : RateLimiter) (k : Nat) (v : Int)
    (tput tget : Int) (rid : Nat) (p : Int) (tout : Int) :
    (tget - tput < 30000 →
      (addRequest { s with cache := cacheSet s.cache k ⟨v, tput⟩ }
          rid p (some k) tout tget).2 = .cachedHit v
      ∧ (addRequest { s with cache := cacheSet s.cache k ⟨v, tput⟩ }
          rid p (some k) tout tget).1.cache = cacheSet s.cache k ⟨v, tput⟩
      ∧ (addRequest { s with cache := cacheSet s.cache k ⟨v, tput⟩ }
          rid p (some k) tout tget).1.priorityQueues = s.priorityQueues)
    ∧ (30000 ≤ tget - tput →
      cacheGet (addRequest { s with cache := cacheSet s.cache k ⟨v, tput⟩ }
          rid p (some k) tout tget).1.cache k = none
      ∧ (addRequest { s with cache := cacheSet s.cache k ⟨v, tput⟩ }
          rid p (some k) tout tget).2
        = .enqueued ⟨rid, clampPriority p, some k, tout, tget, 0⟩) := by
  have hget : cacheGet (cacheSet s.cache k ⟨v, tput⟩) k = some ⟨v, tput⟩ :=
    cacheGet_cacheSet s.cache k ⟨v, tput⟩
  constructor
  · intro h
    have hcond : tget - (⟨v, tput⟩ : CacheEntry).timestamp < cacheTimeout := by
      simpa [cacheTimeout] using h
    refine ⟨?_, ?_, ?_⟩ <;> simp [addRequest, hget, hcond]
  · intro h
    have hcond : ¬ tget - (⟨v, tput⟩ : CacheEntry).timestamp < cacheTimeout := by
      simp only [cacheTimeout]
      omega
    constructor
    · simp only [addRequest, hget, hcond]
      simp
      exact cacheGet_cacheDelete _ _
    · simp [addRequest, hget, hcond]

/-- Witness for C9: a value cached at time 100 is returned by a submit
with the same key at time 200. -/
theorem c9_cache_roundtrip_witness :
    (addRequest { (RateLimiter.init 0) with
        cache := cacheSet (RateLimiter.init 0).cache 11 ⟨42, 100⟩ }
      9 2 (some 11) 10000 200).2 = .cachedHit 42 :=
  ((c9_cache_roundtrip (RateLimiter.init 0) 11 42 100 200 9 2 10000).1
    (by decide)).1
